import Mathlib

/-!
Verification of the core of the `ask-bayes` crate (`src/lib.rs`): the
posterior-probability computation and its input-validation rules.

Embedding choices:
- `f64` values in the arithmetic core are modelled as exact rationals (`ℚ`);
  the divisions performed by the code are guarded so that every division the
  code executes has a strictly positive divisor.
- The probability validator compares its argument against the range
  `0.0..=1.0` with IEEE-754 partial-order semantics, under which NaN compares
  false against everything.  That fragment is modelled with an explicit `F64`
  type carrying a NaN point and a comparison returning `false` on NaN.
- Errors produced with `anyhow!` format strings are modelled structurally as
  inductive values carrying the same data (hypothesis name and numeric
  inputs); the rendered message text is presentation only.
-/

namespace AskBayes

/-- Whether or not evidence supporting the hypothesis was observed
(Rust `enum Evidence`). -/
inductive Evidence where
  | Observed : Evidence
  | NotObserved : Evidence
deriving DecidableEq

/-- Structured form of the errors produced by `validate_likelihoods_and_prior`;
the Rust code renders these as formatted `anyhow` strings carrying the
hypothesis name and the three numeric inputs. -/
inductive BayesError where
  | zeroMarginalObserved (name : String) (prior likelihood likelihood_null : ℚ) : BayesError
  | zeroMarginalNotObserved (name : String) (prior likelihood likelihood_null : ℚ) : BayesError
deriving DecidableEq

/-- Rust `fn negate(value: f64) -> f64 { 1.0_f64 - value }`. -/
def negate (value : ℚ) : ℚ :=
  1 - value

/-- Rust `f64::mul_add(self, a, b)`: fused multiply-add, `self * a + b` in one
rounding step.  Rational arithmetic is exact, so the single rounding step
yields the exact value. -/
def mulAdd (a b c : ℚ) : ℚ :=
  a * b + c

/-- Rust `fn marginal_likelihood`:
`likelihood.mul_add(prior, likelihood_null * negate(prior))`, that is
P(E) = P(E|H)·P(H) + P(E|¬H)·P(¬H). -/
def marginal_likelihood (prior likelihood likelihood_null : ℚ) : ℚ :=
  mulAdd likelihood prior (likelihood_null * negate prior)

/-- Rust `fn validate_likelihoods_and_prior`: the degeneracy guard.  Rejects
when the Bayes denominator for the requested evidence direction is `<= 0`. -/
def validate_likelihoods_and_prior (prior likelihood likelihood_null : ℚ)
    (evidence : Evidence) (name : String) : Except BayesError Unit :=
  match evidence with
  | Evidence.Observed =>
    if marginal_likelihood prior likelihood likelihood_null ≤ 0 then
      Except.error (BayesError.zeroMarginalObserved name prior likelihood likelihood_null)
    else
      Except.ok ()
  | Evidence.NotObserved =>
    if negate (marginal_likelihood prior likelihood likelihood_null) ≤ 0 then
      Except.error (BayesError.zeroMarginalNotObserved name prior likelihood likelihood_null)
    else
      Except.ok ()

/-- Rust `fn calculate_posterior_probability`: runs the degeneracy guard,
propagating its error via `?`, then computes the posterior for the requested
evidence direction. -/
def calculate_posterior_probability (prior likelihood likelihood_null : ℚ)
    (evidence : Evidence) (name : String) : Except BayesError ℚ :=
  match validate_likelihoods_and_prior prior likelihood likelihood_null evidence name with
  | Except.error e => Except.error e
  | Except.ok _ =>
    let p_e := marginal_likelihood prior likelihood likelihood_null
    match evidence with
    | Evidence.Observed => Except.ok (likelihood * prior / p_e)
    | Evidence.NotObserved => Except.ok (negate likelihood * prior / negate p_e)

/-- An `f64` as seen by the probability validator: either NaN or a numeric
value (modelled exactly as a rational). -/
inductive F64 where
  | nan : F64
  | num : ℚ → F64
deriving DecidableEq

/-- IEEE-754 `<=` on `F64`: any comparison involving NaN is `false`. -/
def F64.le : F64 → F64 → Bool
  | F64.num a, F64.num b => decide (a ≤ b)
  | _, _ => false

/-- Rust `fn validate_probability`: fails unless `(0.0..=1.0).contains(&value)`,
where `contains` is `0.0 <= value && value <= 1.0` under the IEEE partial
order. -/
def validate_probability (value : F64) : Except String Unit :=
  if !(F64.le (F64.num 0) value && F64.le value (F64.num 1)) then
    Except.error "Probability must be between 0 and 1"
  else
    Except.ok ()

/-- Digit characters folded into a natural number, most significant first. -/
def digitsToNat (cs : List Char) : Nat :=
  cs.foldl (fun acc c => 10 * acc + (c.toNat - 48)) 0

/-- Body of `parse_f64` after the optional sign has been split off. -/
def parseUnsigned (s : String) (sign : ℚ) (rest : List Char) : Except String F64 :=
  let intPart := rest.takeWhile Char.isDigit
  let rest2 := rest.dropWhile Char.isDigit
  match rest2 with
  | [] =>
    if intPart.isEmpty then
      Except.error ("invalid float literal: " ++ s)
    else
      Except.ok (F64.num (sign * (digitsToNat intPart : ℚ)))
  | List.cons '.' fracPart =>
    if fracPart.all Char.isDigit && !(intPart.isEmpty && fracPart.isEmpty) then
      Except.ok (F64.num (sign * ((digitsToNat intPart : ℚ) +
        (digitsToNat fracPart : ℚ) / (10 : ℚ) ^ fracPart.length)))
    else
      Except.error ("invalid float literal: " ++ s)
  | _ => Except.error ("invalid float literal: " ++ s)

/-- Model of Rust `str::parse::<f64>()` restricted to plain decimal literals:
an optional sign, integer digits, an optional fractional part, at least one
digit in total.  The value is kept exact as a rational; strings outside this
grammar are rejected with a parse error. -/
def parse_f64 (s : String) : Except String F64 :=
  match s.toList with
  | List.cons '-' r => parseUnsigned s (-1) r
  | List.cons '+' r => parseUnsigned s 1 r
  | r => parseUnsigned s 1 r

/-- Rust `fn parse_validate_probability`: parse the string as an `f64`, then
validate it as a probability, returning the parsed value on success. -/
def parse_validate_probability (value : String) : Except String F64 :=
  match parse_f64 value with
  | Except.error e => Except.error e
  | Except.ok float =>
    match validate_probability float with
    | Except.error e => Except.error e
    | Except.ok _ => Except.ok float

/-! ### Helper lemmas shared by the claim theorems -/

theorem marginal_likelihood_def (prior likelihood likelihood_null : ℚ) :
    marginal_likelihood prior likelihood likelihood_null =
      likelihood * prior + likelihood_null * (1 - prior) := rfl

theorem validate_observed_eq (prior likelihood likelihood_null : ℚ) (name : String) :
    validate_likelihoods_and_prior prior likelihood likelihood_null Evidence.Observed name =
      if marginal_likelihood prior likelihood likelihood_null ≤ 0 then
        Except.error (BayesError.zeroMarginalObserved name prior likelihood likelihood_null)
      else
        Except.ok () := rfl

theorem validate_notObserved_eq (prior likelihood likelihood_null : ℚ) (name : String) :
    validate_likelihoods_and_prior prior likelihood likelihood_null Evidence.NotObserved name =
      if 1 - marginal_likelihood prior likelihood likelihood_null ≤ 0 then
        Except.error (BayesError.zeroMarginalNotObserved name prior likelihood likelihood_null)
      else
        Except.ok () := rfl

theorem calculate_observed_of_pos (prior likelihood likelihood_null : ℚ) (name : String)
    (h : 0 < marginal_likelihood prior likelihood likelihood_null) :
    calculate_posterior_probability prior likelihood likelihood_null Evidence.Observed name =
      Except.ok (likelihood * prior / marginal_likelihood prior likelihood likelihood_null) := by
  have h' : ¬ marginal_likelihood prior likelihood likelihood_null ≤ 0 := not_le.mpr h
  simp [calculate_posterior_probability, validate_likelihoods_and_prior, h']

theorem calculate_notObserved_of_pos (prior likelihood likelihood_null : ℚ) (name : String)
    (h : 0 < 1 - marginal_likelihood prior likelihood likelihood_null) :
    calculate_posterior_probability prior likelihood likelihood_null Evidence.NotObserved name =
      Except.ok ((1 - likelihood) * prior /
        (1 - marginal_likelihood prior likelihood likelihood_null)) := by
  have h' : ¬ 1 ≤ marginal_likelihood prior likelihood likelihood_null := by
    push_neg
    linarith
  simp [calculate_posterior_probability, validate_likelihoods_and_prior, negate, h']

theorem calculate_observed_of_nonpos (prior likelihood likelihood_null : ℚ) (name : String)
    (h : marginal_likelihood prior likelihood likelihood_null ≤ 0) :
    calculate_posterior_probability prior likelihood likelihood_null Evidence.Observed name =
      Except.error (BayesError.zeroMarginalObserved name prior likelihood likelihood_null) := by
  simp [calculate_posterior_probability, validate_likelihoods_and_prior, h]

theorem calculate_notObserved_of_nonpos (prior likelihood likelihood_null : ℚ) (name : String)
    (h : 1 - marginal_likelihood prior likelihood likelihood_null ≤ 0) :
    calculate_posterior_probability prior likelihood likelihood_null Evidence.NotObserved name =
      Except.error
        (BayesError.zeroMarginalNotObserved name prior likelihood likelihood_null) := by
  have h' : 1 ≤ marginal_likelihood prior likelihood likelihood_null := by
    linarith
  simp [calculate_posterior_probability, validate_likelihoods_and_prior, negate, h']

theorem validate_probability_num_eq (q : ℚ) :
    validate_probability (F64.num q) =
      if 0 ≤ q ∧ q ≤ 1 then Except.ok ()
      else Except.error "Probability must be between 0 and 1" := by
  by_cases h : 0 ≤ q ∧ q ≤ 1
  · simp [validate_probability, F64.le, h.1, h.2, h]
  · rw [if_neg h]
    rcases not_and_or.mp h with h1 | h1
    · simp [validate_probability, F64.le, h1]
    · simp [validate_probability, F64.le, h1]

theorem marginal_literal : marginal_likelihood (3/4) (3/4) (1/2) = 11/16 := by
  rw [marginal_likelihood_def]
  norm_num

/-! ### Claim theorems -/

/-- Claim C1: whenever the degeneracy guard succeeds,
`calculate_posterior_probability` returns `Ok(likelihood * prior / p_e)` when
evidence is Observed and `Ok((1 - likelihood) * prior / (1 - p_e))` when
evidence is NotObserved, where `p_e` is the marginal likelihood; these are the
only success branches. -/
theorem C1_posterior_success_formula (prior likelihood likelihood_null : ℚ)
    (evidence : Evidence) (name : String)
    (h : validate_likelihoods_and_prior prior likelihood likelihood_null evidence name =
      Except.ok ()) :
    calculate_posterior_probability prior likelihood likelihood_null evidence name =
      match evidence with
      | Evidence.Observed =>
        Except.ok (likelihood * prior / marginal_likelihood prior likelihood likelihood_null)
      | Evidence.NotObserved =>
        Except.ok ((1 - likelihood) * prior /
          (1 - marginal_likelihood prior likelihood likelihood_null)) := by
  cases evidence <;> simp [calculate_posterior_probability, h, negate]

/-- Witness for C1 at prior = 3/4, likelihood = 3/4, likelihood_null = 1/2,
evidence Observed. -/
theorem C1_posterior_success_formula_witness :
    calculate_posterior_probability (3/4) (3/4) (1/2) Evidence.Observed "test" =
      Except.ok ((3/4) * (3/4) / marginal_likelihood (3/4) (3/4) (1/2)) := by
  have hm : ¬ marginal_likelihood (3/4) (3/4) (1/2) ≤ 0 := by
    rw [marginal_literal]
    norm_num
  have hv : validate_likelihoods_and_prior (3/4) (3/4) (1/2) Evidence.Observed "test" =
      Except.ok () := by
    rw [validate_observed_eq, if_neg hm]
  exact C1_posterior_success_formula (3/4) (3/4) (1/2) Evidence.Observed "test" hv

/-- Claim C2: `calculate_posterior_probability` fails exactly when the Bayes
denominator for the requested evidence direction is `<= 0`; on failure the
degeneracy guard's error is propagated unchanged; no range check on the three
inputs is performed (the characterization holds for arbitrary rationals). -/
theorem C2_posterior_error_characterization (prior likelihood likelihood_null : ℚ)
    (evidence : Evidence) (name : String) :
    (((calculate_posterior_probability prior likelihood likelihood_null
        evidence name).isOk = false) ↔
      (match evidence with
       | Evidence.Observed => marginal_likelihood prior likelihood likelihood_null ≤ 0
       | Evidence.NotObserved =>
         1 - marginal_likelihood prior likelihood likelihood_null ≤ 0)) ∧
    (∀ e : BayesError,
      validate_likelihoods_and_prior prior likelihood likelihood_null evidence name =
        Except.error e →
      calculate_posterior_probability prior likelihood likelihood_null evidence name =
        Except.error e) := by
  constructor
  · cases evidence
    · by_cases h : marginal_likelihood prior likelihood likelihood_null ≤ 0
      · rw [calculate_observed_of_nonpos _ _ _ _ h]
        simp [Except.isOk, Except.toBool, h]
      · rw [calculate_observed_of_pos _ _ _ _ (not_le.mp h)]
        simp [Except.isOk, Except.toBool, h]
    · by_cases h : 1 - marginal_likelihood prior likelihood likelihood_null ≤ 0
      · have h1 : (1 : ℚ) ≤ marginal_likelihood prior likelihood likelihood_null := by
          linarith
        rw [calculate_notObserved_of_nonpos _ _ _ _ h]
        simp [Except.isOk, Except.toBool, h1]
      · have h1 : ¬ (1 : ℚ) ≤ marginal_likelihood prior likelihood likelihood_null := by
          push_neg
          linarith [not_le.mp h]
        rw [calculate_notObserved_of_pos _ _ _ _ (by linarith [not_le.mp h])]
        simp [Except.isOk, Except.toBool, h1]
  · intro e he
    simp [calculate_posterior_probability, he]

/-- Witness for C2 at prior = 1/2, likelihood = 0, likelihood_null = 0,
evidence Observed: the guard error is propagated unchanged. -/
theorem C2_posterior_error_characterization_witness :
    calculate_posterior_probability (1/2) 0 0 Evidence.Observed "test" =
      Except.error (BayesError.zeroMarginalObserved "test" (1/2) 0 0) := by
  have hm : marginal_likelihood (1/2) 0 0 ≤ 0 := by
    rw [marginal_likelihood_def]
    norm_num
  have hv : validate_likelihoods_and_prior (1/2) 0 0 Evidence.Observed "test" =
      Except.error (BayesError.zeroMarginalObserved "test" (1/2) 0 0) := by
    rw [validate_observed_eq, if_pos hm]
  exact (C2_posterior_error_characterization (1/2) 0 0 Evidence.Observed "test").2
    (BayesError.zeroMarginalObserved "test" (1/2) 0 0) hv

/-- Claim C3: for inputs in the closed unit interval with evidence Observed and
a positive Bayes denominator, the computation succeeds with a value in the
closed unit interval. -/
theorem C3_observed_posterior_mem_unit_interval (prior likelihood likelihood_null : ℚ)
    (name : String)
    (hp0 : 0 ≤ prior) (hp1 : prior ≤ 1)
    (hl0 : 0 ≤ likelihood) (hl1 : likelihood ≤ 1)
    (hn0 : 0 ≤ likelihood_null) (hn1 : likelihood_null ≤ 1)
    (hm : 0 < likelihood * prior + likelihood_null * (1 - prior)) :
    ∃ v, calculate_posterior_probability prior likelihood likelihood_null
        Evidence.Observed name = Except.ok v ∧ 0 ≤ v ∧ v ≤ 1 := by
  have hmpos : 0 < marginal_likelihood prior likelihood likelihood_null := by
    rw [marginal_likelihood_def]
    exact hm
  refine ⟨likelihood * prior / marginal_likelihood prior likelihood likelihood_null,
    calculate_observed_of_pos _ _ _ _ hmpos, ?_, ?_⟩
  · exact div_nonneg (mul_nonneg hl0 hp0) hmpos.le
  · rw [div_le_one hmpos, marginal_likelihood_def]
    have hnn : 0 ≤ likelihood_null * (1 - prior) := mul_nonneg hn0 (by linarith)
    linarith

/-- Witness for C3 at prior = 3/4, likelihood = 3/4, likelihood_null = 1/2. -/
theorem C3_observed_posterior_mem_unit_interval_witness :
    ∃ v, calculate_posterior_probability (3/4) (3/4) (1/2)
        Evidence.Observed "test" = Except.ok v ∧ 0 ≤ v ∧ v ≤ 1 :=
  C3_observed_posterior_mem_unit_interval (3/4) (3/4) (1/2) "test"
    (by norm_num) (by norm_num) (by norm_num) (by norm_num) (by norm_num) (by norm_num)
    (by norm_num)

/-- Claim C4: on the literal scenario prior = 0.75, likelihood = 0.75,
likelihood_null = 0.5, the posterior is within f64 epsilon of
0.8181818181818182 for Observed and of 0.6 for NotObserved. -/
theorem C4_literal_scenario :
    (∃ v, calculate_posterior_probability (3/4) (3/4) (1/2) Evidence.Observed "test" =
        Except.ok v ∧ |v - 0.8181818181818182| < 1 / 2 ^ 52) ∧
    (∃ w, calculate_posterior_probability (3/4) (3/4) (1/2) Evidence.NotObserved "test" =
        Except.ok w ∧ |w - 0.6| < 1 / 2 ^ 52) := by
  constructor
  · refine ⟨9/11, ?_, ?_⟩
    · rw [calculate_observed_of_pos (3/4) (3/4) (1/2) "test"
        (by rw [marginal_literal]; norm_num), marginal_literal]
      norm_num
    · rw [abs_sub_lt_iff]
      constructor <;> norm_num
  · refine ⟨3/5, ?_, ?_⟩
    · rw [calculate_notObserved_of_pos (3/4) (3/4) (1/2) "test"
        (by rw [marginal_literal]; norm_num), marginal_literal]
      norm_num
    · rw [abs_sub_lt_iff]
      constructor <;> norm_num

/-! ### Concrete parse evaluations used by claim C5 -/

theorem parse_f64_zero_seven_five : parse_f64 "0.75" = Except.ok (F64.num (3/4)) := by
  have h1 : parse_f64 "0.75" = Except.ok (F64.num ((1 : ℚ) *
      ((digitsToNat ['0'] : ℚ) + (digitsToNat ['7', '5'] : ℚ) / (10 : ℚ) ^ 2))) := rfl
  rw [h1, show digitsToNat ['0'] = 0 from rfl, show digitsToNat ['7', '5'] = 75 from rfl]
  norm_num

theorem parse_validate_zero_seven_five :
    parse_validate_probability "0.75" = Except.ok (F64.num (3/4)) := by
  have hc : (0 : ℚ) ≤ 3/4 ∧ (3/4 : ℚ) ≤ 1 := by constructor <;> norm_num
  have hv : validate_probability (F64.num (3/4)) = Except.ok () := by
    rw [validate_probability_num_eq, if_pos hc]
  simp [parse_validate_probability, parse_f64_zero_seven_five, hv]

theorem parse_f64_one_point_one : parse_f64 "1.1" = Except.ok (F64.num (11/10)) := by
  have h1 : parse_f64 "1.1" = Except.ok (F64.num ((1 : ℚ) *
      ((digitsToNat ['1'] : ℚ) + (digitsToNat ['1'] : ℚ) / (10 : ℚ) ^ 1))) := rfl
  rw [h1, show digitsToNat ['1'] = 1 from rfl]
  norm_num

theorem parse_validate_one_point_one :
    parse_validate_probability "1.1" =
      Except.error "Probability must be between 0 and 1" := by
  have hc : ¬ ((0 : ℚ) ≤ 11/10 ∧ (11/10 : ℚ) ≤ 1) := fun hcc => absurd hcc.2 (by norm_num)
  have hv : validate_probability (F64.num (11/10)) =
      Except.error "Probability must be between 0 and 1" := by
    rw [validate_probability_num_eq, if_neg hc]
  simp [parse_validate_probability, parse_f64_one_point_one, hv]

theorem parse_f64_neg_zero_point_one :
    parse_f64 "-0.1" = Except.ok (F64.num (-(1/10))) := by
  have h1 : parse_f64 "-0.1" = Except.ok (F64.num ((-1 : ℚ) *
      ((digitsToNat ['0'] : ℚ) + (digitsToNat ['1'] : ℚ) / (10 : ℚ) ^ 1))) := rfl
  rw [h1, show digitsToNat ['0'] = 0 from rfl, show digitsToNat ['1'] = 1 from rfl]
  norm_num

theorem parse_validate_neg_zero_point_one :
    parse_validate_probability "-0.1" =
      Except.error "Probability must be between 0 and 1" := by
  have hc : ¬ ((0 : ℚ) ≤ -(1/10) ∧ (-(1/10) : ℚ) ≤ 1) := fun hcc => absurd hcc.1 (by norm_num)
  have hv : validate_probability (F64.num (-(1/10))) =
      Except.error "Probability must be between 0 and 1" := by
    rw [validate_probability_num_eq, if_neg hc]
  simp only [parse_validate_probability, parse_f64_neg_zero_point_one, hv]

theorem parse_validate_invalid :
    parse_validate_probability "invalid" =
      Except.error ("invalid float literal: " ++ "invalid") := rfl

/-- Claim C5: the probability validator succeeds exactly on numeric values in
the closed interval [0, 1] and fails on every other value (NaN included);
"0.75" parses and validates to 0.75, while "1.1", "-0.1" and "invalid" are all
rejected with an error. -/
theorem C5_probability_validator_range_and_examples :
    (∀ q : ℚ, validate_probability (F64.num q) = Except.ok () ↔ (0 ≤ q ∧ q ≤ 1)) ∧
    (∃ e, validate_probability F64.nan = Except.error e) ∧
    parse_validate_probability "0.75" = Except.ok (F64.num (3/4)) ∧
    (∃ e, parse_validate_probability "1.1" = Except.error e) ∧
    (∃ e, parse_validate_probability "-0.1" = Except.error e) ∧
    (∃ e, parse_validate_probability "invalid" = Except.error e) := by
  refine ⟨?_, ⟨"Probability must be between 0 and 1", rfl⟩,
    parse_validate_zero_seven_five,
    ⟨"Probability must be between 0 and 1", parse_validate_one_point_one⟩,
    ⟨"Probability must be between 0 and 1", parse_validate_neg_zero_point_one⟩,
    ⟨"invalid float literal: " ++ "invalid", parse_validate_invalid⟩⟩
  intro q
  rw [validate_probability_num_eq]
  split_ifs with h
  · simp [h]
  · simp [h]

/-- Claim C6: whenever `calculate_posterior_probability` returns Ok, the Bayes
denominator it divided by is strictly positive, so the returned value is a
well-defined finite rational; every input whose denominator is zero or
negative was rejected with an error before the division. -/
theorem C6_ok_implies_positive_denominator (prior likelihood likelihood_null : ℚ)
    (evidence : Evidence) (name : String) (v : ℚ)
    (h : calculate_posterior_probability prior likelihood likelihood_null evidence name =
      Except.ok v) :
    match evidence with
    | Evidence.Observed =>
      0 < marginal_likelihood prior likelihood likelihood_null ∧
      v = likelihood * prior / marginal_likelihood prior likelihood likelihood_null
    | Evidence.NotObserved =>
      0 < 1 - marginal_likelihood prior likelihood likelihood_null ∧
      v = (1 - likelihood) * prior /
        (1 - marginal_likelihood prior likelihood likelihood_null) := by
  cases evidence
  · by_cases hm : marginal_likelihood prior likelihood likelihood_null ≤ 0
    · rw [calculate_observed_of_nonpos _ _ _ _ hm] at h
      exact absurd h (by simp)
    · have hm' := not_le.mp hm
      rw [calculate_observed_of_pos _ _ _ _ hm'] at h
      exact ⟨hm', (Except.ok.inj h).symm⟩
  · by_cases hm : 1 - marginal_likelihood prior likelihood likelihood_null ≤ 0
    · rw [calculate_notObserved_of_nonpos _ _ _ _ hm] at h
      exact absurd h (by simp)
    · have hm' : 0 < 1 - marginal_likelihood prior likelihood likelihood_null := by
        linarith [not_le.mp hm]
      rw [calculate_notObserved_of_pos _ _ _ _ hm'] at h
      exact ⟨hm', (Except.ok.inj h).symm⟩

/-- Witness for C6 at prior = 3/4, likelihood = 3/4, likelihood_null = 1/2,
evidence Observed, value 9/11. -/
theorem C6_ok_implies_positive_denominator_witness :
    0 < marginal_likelihood (3/4) (3/4) (1/2) ∧
      (9/11 : ℚ) = (3/4) * (3/4) / marginal_likelihood (3/4) (3/4) (1/2) := by
  have hm : 0 < marginal_likelihood (3/4) (3/4) (1/2) := by
    rw [marginal_literal]
    norm_num
  have h : calculate_posterior_probability (3/4) (3/4) (1/2) Evidence.Observed "test" =
      Except.ok (9/11) := by
    rw [calculate_observed_of_pos (3/4) (3/4) (1/2) "test" hm, marginal_literal]
    norm_num
  exact C6_ok_implies_positive_denominator (3/4) (3/4) (1/2) Evidence.Observed "test" (9/11) h

/-- Claim C7: the marginal likelihood equals
likelihood·prior + likelihood_null·(1 − prior), computed as a single fused
multiply-add of likelihood and prior with the separately computed product
likelihood_null · (1 − prior). -/
theorem C7_marginal_likelihood_fused_formula (prior likelihood likelihood_null : ℚ) :
    marginal_likelihood prior likelihood likelihood_null =
      likelihood * prior + likelihood_null * (1 - prior) ∧
    marginal_likelihood prior likelihood likelihood_null =
      mulAdd likelihood prior (likelihood_null * negate prior) :=
  ⟨rfl, rfl⟩

/-- Claim C8: m + (1 − m) = 1 exactly for the marginal likelihood m, and the
Observed and NotObserved branches divide by the complementary terms m and
1 − m respectively. -/
theorem C8_complementary_marginal_denominators (prior likelihood likelihood_null : ℚ)
    (name : String) :
    marginal_likelihood prior likelihood likelihood_null +
        (1 - marginal_likelihood prior likelihood likelihood_null) = 1 ∧
    (0 < marginal_likelihood prior likelihood likelihood_null →
      calculate_posterior_probability prior likelihood likelihood_null
          Evidence.Observed name =
        Except.ok (likelihood * prior /
          marginal_likelihood prior likelihood likelihood_null)) ∧
    (0 < 1 - marginal_likelihood prior likelihood likelihood_null →
      calculate_posterior_probability prior likelihood likelihood_null
          Evidence.NotObserved name =
        Except.ok ((1 - likelihood) * prior /
          (1 - marginal_likelihood prior likelihood likelihood_null))) :=
  ⟨by ring, fun h => calculate_observed_of_pos _ _ _ _ h,
    fun h => calculate_notObserved_of_pos _ _ _ _ h⟩

/-- Witness for C8 at prior = 3/4, likelihood = 3/4, likelihood_null = 1/2,
evidence NotObserved. -/
theorem C8_complementary_marginal_denominators_witness :
    calculate_posterior_probability (3/4) (3/4) (1/2) Evidence.NotObserved "h" =
      Except.ok ((1 - 3/4) * (3/4) / (1 - marginal_likelihood (3/4) (3/4) (1/2))) := by
  have hm : 0 < 1 - marginal_likelihood (3/4) (3/4) (1/2) := by
    rw [marginal_literal]
    norm_num
  exact (C8_complementary_marginal_denominators (3/4) (3/4) (1/2) "h").2.2 hm

/-- Claim C9: the probability validator rejects NaN: both comparisons against
the range bounds are false for NaN, so NaN never passes the [0, 1] range
check and an error is returned. -/
theorem C9_validate_probability_rejects_nan :
    validate_probability F64.nan = Except.error "Probability must be between 0 and 1" ∧
    F64.le (F64.num 0) F64.nan = false ∧ F64.le F64.nan (F64.num 1) = false :=
  ⟨rfl, rfl, rfl⟩

/-- Claim C10: the posterior computation is independent of the hypothesis
name: for identical numeric inputs and evidence, two calls with different
names agree on success and on the returned value; the name only enters the
error payload. -/
theorem C10_posterior_name_independent (prior likelihood likelihood_null : ℚ)
    (evidence : Evidence) (name1 name2 : String) :
    (calculate_posterior_probability prior likelihood likelihood_null
        evidence name1).toOption =
    (calculate_posterior_probability prior likelihood likelihood_null
        evidence name2).toOption := by
  cases evidence <;>
    · simp only [calculate_posterior_probability, validate_likelihoods_and_prior]
      split_ifs <;> rfl

end AskBayes
